import Mathlib

/-!
Verification of the coordination layer of the openai_chat backend.

This file gives a shallow embedding, in Lean 4, of the distributed
coordination primitives of the repository:

* the Redis idempotency executor
  (openai_chat/settings/utils/redis/idempotency.py),
* the Redis single-instance lock and the lock factory
  (openai_chat/settings/utils/locks/*.py),
* the Snowflake ID generator and its Redis node register
  (openai_chat/settings/utils/snowflake/*.py),
* the RS256 JWT signer / verifier / payload builder
  (openai_chat/settings/utils/jwt/*.py),

and proves (or refutes) the specification claims about them.

Modelling conventions:

* Redis is modelled as explicit state passed through each operation.  A
  value stored under a key is kept together with the TTL it was written
  with; TTL expiry itself is a separate event that none of the theorems
  below trigger (they are all about behaviour while records are live).
* Server-side Lua scripts execute atomically, so each script is one Lean
  function from store state to (reply, store state).
* JSON documents are modelled by the inductive type JVal.  Serialization
  (json.dumps / cjson.encode) and parsing (json.loads / cjson.decode)
  are inverse bijections on the documents the code produces, so the
  store holds JVal values directly; the CONFLICT branch of the Lua
  script (structurally invalid stored value) is still represented, by
  stored values that are not objects or lack a "state" field.
* Python integers are unbounded, so they are embedded as Int (or Nat),
  never as fixed-width words.
-/

/-- A JSON value, as produced by json.dumps / consumed by cjson.decode.
Objects are association lists of string keys. -/
inductive JVal where
  | jnull : JVal
  | jbool : Bool → JVal
  | jint : Int → JVal
  | jstr : String → JVal
  | jarr : List JVal → JVal
  | jobj : List (String × JVal) → JVal

namespace JVal

/-- Field lookup in a JSON object body (Lua obj[k], Python dict access). -/
def lookupField (fields : List (String × JVal)) (k : String) : Option JVal :=
  match fields with
  | [] => none
  | (k', v) :: rest => if k' = k then some v else lookupField rest k

end JVal

namespace Idempotency

/-- One Redis cell for a fixed (scope, key): the stored JSON value and
the TTL (seconds) it was written with.  none means the key is absent. -/
abbrev Cell := Option (JVal × Int)

/-- Decoded result of the begin script, mirroring dataclass IdemReadResult:
action is one of NEW / DONE / PENDING / FAILED (CONFLICT raises instead),
cached_result_json carries the cached result on DONE. -/
structure IdemReadResult where
  action : String
  cached_result_json : Option JVal

/-- The FAILED-state TTL, IdempotencyExecutor.FAILED_TTL_SECONDS = 60. -/
def FAILED_TTL_SECONDS : Int := 60

/-- The default TTL, IdempotencyExecutor.DEFAULT_TTL_SECONDS = 600. -/
def DEFAULT_TTL_SECONDS : Int := 600

/-- The PENDING placeholder document written by the begin script:
json.dumps of the Python dict built in IdempotencyExecutor.begin. -/
def pendingPayload (now : Int) : JVal :=
  JVal.jobj [("state", JVal.jstr "PENDING"), ("ts", JVal.jint now)]

/-- IdempotencyExecutor._LUA_BEGIN, one atomic step on the store.

Returns the pair the script returns (action string, cached-result; the
empty string "" is modelled as none) together with the store cell after
the step.  The script runs atomically, so the SET ... NX after a nil GET
always succeeds inside the script. -/
def luaBegin (cur : Cell) (pendingValue : JVal) (ttl : Int) :
    (String × Option JVal) × Cell :=
  match cur with
  | none => (("NEW", none), some (pendingValue, ttl))
  | some (v, t) =>
    match v with
    | JVal.jobj fields =>
      match JVal.lookupField fields "state" with
      | none =>
        -- "not obj[state]": a nil state field is structurally invalid
        (("CONFLICT", none), some (v, t))
      | some (JVal.jbool false) =>
        -- Lua falsiness: a false state field also fails "not obj[state]"
        (("CONFLICT", none), some (v, t))
      | some (JVal.jstr s) =>
        if s = "SUCCEEDED" then
          (("DONE", JVal.lookupField fields "result"), some (v, t))
        else if s = "PENDING" then
          (("PENDING", none), some (v, t))
        else if s = "FAILED" then
          (("FAILED", none), some (v, t))
        else
          (("CONFLICT", none), some (v, t))
      | some _ =>
        -- a non-string state equals none of the three state literals
        (("CONFLICT", none), some (v, t))
    | _ =>
      -- stored value is not a JSON object (cjson.decode fails or not a table)
      (("CONFLICT", none), some (v, t))

/-- IdempotencyExecutor.begin: invoke the script with the PENDING
placeholder, then map the action strings onto IdemReadResult; CONFLICT
(or an unknown action) raises IdempotencyKeyConflictError. -/
def begin (cur : Cell) (now : Int) (ttl_seconds : Int) :
    Except String IdemReadResult × Cell :=
  let r := luaBegin cur (pendingPayload now) ttl_seconds
  let action := r.1.1
  let cached := r.1.2
  let cur' := r.2
  if action = "NEW" then
    (.ok ⟨"NEW", none⟩, cur')
  else if action = "DONE" then
    (.ok ⟨"DONE", cached⟩, cur')
  else if action = "PENDING" then
    (.ok ⟨"PENDING", none⟩, cur')
  else if action = "FAILED" then
    (.ok ⟨"FAILED", none⟩, cur')
  else
    (.error "IdempotencyKeyConflictError", cur')

/-- IdempotencyExecutor.succeed: overwrite the cell with a SUCCEEDED
record carrying the result, with the caller's ttl_seconds. -/
def succeed (now : Int) (result : JVal) (ttl_seconds : Int) : Cell :=
  some (JVal.jobj
    [("state", JVal.jstr "SUCCEEDED"), ("ts", JVal.jint now),
     ("result", result)], ttl_seconds)

/-- IdempotencyExecutor.fail: overwrite the cell with a FAILED record
(short FAILED_TTL_SECONDS ttl); error detail payload optional. -/
def crashMark (now : Int) (error : Option JVal) : Cell :=
  match error with
  | none =>
    some (JVal.jobj [("state", JVal.jstr "FAILED"), ("ts", JVal.jint now)],
      FAILED_TTL_SECONDS)
  | some e =>
    some (JVal.jobj
      [("state", JVal.jstr "FAILED"), ("ts", JVal.jint now), ("error", e)],
      FAILED_TTL_SECONDS)

/-- A trace of begin calls, each carrying its own (now, ttl) arguments,
run in sequence against one (scope, key) cell; collects each call's
action outcome (the Except of begin). -/
def beginTrace (cur : Cell) : List (Int × Int) → List (Except String IdemReadResult) × Cell
  | [] => ([], cur)
  | (now, ttl) :: rest =>
    let r := begin cur now ttl
    let t := beginTrace r.2 rest
    (r.1 :: t.1, t.2)

/-- Helper: a begin call on an absent cell claims it: it returns NEW and
writes the PENDING placeholder with the call's TTL. -/
theorem begin_on_absent (now ttl : Int) :
    begin none now ttl = (.ok ⟨"NEW", none⟩, some (pendingPayload now, ttl)) := by
  rfl

/-- Helper: a begin call against a live PENDING placeholder returns
PENDING and leaves the cell unchanged. -/
theorem begin_on_pending (now now' ttl ttl' : Int) :
    begin (some (pendingPayload now, ttl)) now' ttl' =
      (.ok ⟨"PENDING", none⟩, some (pendingPayload now, ttl)) := by
  rfl

/-- Helper: a trace of begin calls over a live PENDING placeholder leaves
the cell unchanged and yields PENDING everywhere. -/
theorem beginTrace_on_pending (calls : List (Int × Int)) (now ttl : Int) :
    beginTrace (some (pendingPayload now, ttl)) calls =
      (calls.map (fun _ => .ok ⟨"PENDING", none⟩), some (pendingPayload now, ttl)) := by
  induction calls with
  | nil => rfl
  | cons c rest ih =>
    simp only [beginTrace, begin_on_pending, ih, List.map_cons]

/-- Projection of one begin outcome onto its action string (errors, which
cannot arise in the traces below, are mapped to ERROR). -/
def actionOf : Except String IdemReadResult → String
  | .ok r => r.action
  | .error _ => "ERROR"

/-- C1: starting from an ABSENT record, in any serialized trace of
begin(scope, key, ttl) calls (each one atomic store step), the first
call returns NEW and writes the PENDING placeholder with its own TTL;
every later call, run while that record is live, returns PENDING (hence
PENDING-or-DONE); exactly one call in the trace returns NEW, so two
begin calls never both return NEW for the same record. -/
theorem begin_exactly_one_new (first : Int × Int) (rest : List (Int × Int)) :
    beginTrace none (first :: rest) =
      ((.ok ⟨"NEW", none⟩) :: rest.map (fun _ => .ok ⟨"PENDING", none⟩),
        some (pendingPayload first.1, first.2)) ∧
    (((beginTrace none (first :: rest)).1.map actionOf).count "NEW" = 1) := by
  have h1 : beginTrace none (first :: rest) =
      ((.ok ⟨"NEW", none⟩) :: rest.map (fun _ => .ok ⟨"PENDING", none⟩),
        some (pendingPayload first.1, first.2)) := by
    simp only [beginTrace, begin_on_absent, beginTrace_on_pending]
  refine ⟨h1, ?_⟩
  rw [h1]
  simp [actionOf, List.count_cons, List.count_eq_zero]

/-- IdempotencyExecutor.execute: begin, dispatch on the action, run the
business function on NEW (or FAILED with retry allowed), then commit
with succeed or fail.  The outcome of calling func() once is passed in
as funcOutcome; the third component of the result records whether func
was invoked by this call.  json.loads of a cached result produced by
succeed always parses, so the corrupted-cache branch (which raises
IdempotencyKeyConflictError) has no representable input here. -/
def execute (cur : Cell) (scope idem_key : String) (ttl_seconds : Int)
    (now : Int) (funcOutcome : Except String JVal)
    (allow_retry_after_failed : Bool) :
    (Except String JVal) × Cell × Bool :=
  if scope = "" ∨ idem_key = "" then
    (.error "ValueError: scope and idem_key are required for idempotency", cur, false)
  else
    let ttl := if ttl_seconds ≤ 0 then DEFAULT_TTL_SECONDS else ttl_seconds
    let r := begin cur now ttl
    match r.1 with
    | .error e => (.error e, r.2, false)
    | .ok read =>
      if read.action = "DONE" then
        match read.cached_result_json with
        | some j => (.ok j, r.2, false)
        | none => (.ok (JVal.jobj []), r.2, false)
      else if read.action = "PENDING" then
        (.error "IdempotencyInProgressError", r.2, false)
      else if read.action = "FAILED" ∧ allow_retry_after_failed = false then
        (.error "IdempotencyInProgressError (retry disabled)", r.2, false)
      else
        match funcOutcome with
        | .error e =>
          (.error e,
            crashMark now (some (JVal.jobj [("code", JVal.jstr "BUSINESS_ERROR")])), true)
        | .ok result =>
          match result with
          | JVal.jobj fs =>
            (.ok (JVal.jobj fs), succeed now (JVal.jobj fs) ttl, true)
          | _ =>
            (.error "TypeError: idempotency func() must return dict",
              crashMark now (some (JVal.jobj [("code", JVal.jstr "BUSINESS_ERROR")])), true)

/-- C8: a successful execute followed by a second execute with the same
(scope, key) while the SUCCEEDED record is still cached: the first call
invokes func and returns its dict result; the second call returns an
equal result without invoking its function, whatever that function
would have produced and whatever its retry flag is — across both calls
func runs exactly once. -/
theorem execute_replays_cached_result (scope idem_key : String)
    (ttl now1 now2 : Int) (fs : List (String × JVal))
    (func2 : Except String JVal) (retry1 retry2 : Bool)
    (hs : scope ≠ "") (hk : idem_key ≠ "") (ht : 0 < ttl) :
    execute none scope idem_key ttl now1 (.ok (JVal.jobj fs)) retry1 =
      (.ok (JVal.jobj fs), succeed now1 (JVal.jobj fs) ttl, true) ∧
    execute (succeed now1 (JVal.jobj fs) ttl) scope idem_key ttl now2 func2 retry2 =
      (.ok (JVal.jobj fs), succeed now1 (JVal.jobj fs) ttl, false) := by
  have hcond : ¬ (scope = "" ∨ idem_key = "") := by
    rintro (h | h) <;> [exact hs h; exact hk h]
  have httl : ¬ ttl ≤ 0 := not_le.mpr ht
  constructor
  · simp only [execute, if_neg hcond, if_neg httl, begin_on_absent]
    rfl
  · simp only [execute, if_neg hcond, if_neg httl, succeed, begin, luaBegin,
      JVal.lookupField]
    rfl

/-- Witness for C8 at a concrete input: scope "reg", key "k1", ttl 600,
result dict with one field. -/
theorem execute_replays_cached_result_witness :
    execute none "reg" "k1" 600 11 (.ok (JVal.jobj [("ok", JVal.jbool true)])) true =
      (.ok (JVal.jobj [("ok", JVal.jbool true)]),
        succeed 11 (JVal.jobj [("ok", JVal.jbool true)]) 600, true) ∧
    execute (succeed 11 (JVal.jobj [("ok", JVal.jbool true)]) 600) "reg" "k1" 600 99
        (.error "func would run again") false =
      (.ok (JVal.jobj [("ok", JVal.jbool true)]),
        succeed 11 (JVal.jobj [("ok", JVal.jbool true)]) 600, false) :=
  execute_replays_cached_result "reg" "k1" 600 11 99 [("ok", JVal.jbool true)]
    (.error "func would run again") true false
    (by decide) (by decide) (by decide)

end Idempotency

namespace Locks

/-! Model of openai_chat/settings/utils/locks: the Redis store the locks
live in, RedisSingleLock, the BaseLock context-manager protocol and the
build_lock factory. -/

/-- The lock Redis database: an association list from key to
(stored value, TTL seconds it was set with). -/
abbrev LockStore := List (String × String × Int)

/-- redis GET key, returning the stored value. -/
def storeGet (st : LockStore) (k : String) : Option String :=
  match st with
  | [] => none
  | (k', v, _) :: rest => if k' = k then some v else storeGet rest k

/-- redis SET key value nx=True ex=expire: write only if the key is
absent; return the success flag and the new store. -/
def storeSetNxEx (st : LockStore) (k v : String) (ex : Int) : Bool × LockStore :=
  match storeGet st k with
  | some _ => (false, st)
  | none => (true, (k, v, ex) :: st)

/-- redis DEL key. -/
def storeDel (st : LockStore) (k : String) : LockStore :=
  match st with
  | [] => []
  | (k', v, e) :: rest => if k' = k then storeDel rest k else (k', v, e) :: storeDel rest k

/-- RedisSingleLock: key, expire seconds, and the fresh uuid4 owner
token generated at construction. -/
structure RedisSingleLock where
  key : String
  expire : Int
  token : String

/-- RedisSingleLock.acquire: SET key token nx=True ex=expire; True on
success, False when the key is already held (or on a redis error, which
the method swallows into False). -/
def RedisSingleLock.acquire (lk : RedisSingleLock) (st : LockStore) :
    Bool × LockStore :=
  storeSetNxEx st lk.key lk.token lk.expire

/-- RedisSingleLock.release: the atomic Lua script
if get(KEYS[1]) == ARGV[1] then del(KEYS[1]) else 0, executed as one
atomic store step.  The surrounding Python catches every exception, so
release always returns a store and never raises. -/
def RedisSingleLock.release (lk : RedisSingleLock) (st : LockStore) : LockStore :=
  match storeGet st lk.key with
  | some v => if v = lk.token then storeDel st lk.key else st
  | none => st

/-- C7: release deletes the key exactly when the stored value is the
lock's own token; if the record now carries a different owner's token
(the lock expired and was re-acquired), or no record exists, the store
is left completely unchanged (and release does not raise: it is a total
function into LockStore). -/
theorem release_only_deletes_own_token (lk : RedisSingleLock) (st : LockStore) :
    (storeGet st lk.key = some lk.token →
      lk.release st = storeDel st lk.key) ∧
    (∀ tok2, tok2 ≠ lk.token → storeGet st lk.key = some tok2 →
      lk.release st = st) ∧
    (storeGet st lk.key = none → lk.release st = st) := by
  refine ⟨fun h => ?_, fun tok2 hne h => ?_, fun h => ?_⟩
  · simp [RedisSingleLock.release, h]
  · simp [RedisSingleLock.release, h, hne]
  · simp [RedisSingleLock.release, h]

/-- Witness for C7: a lock whose key now holds another owner's token is
released as a no-op; a lock holding its own token is deleted. -/
theorem release_only_deletes_own_token_witness :
    RedisSingleLock.release ⟨"lock:r", 10, "tokA"⟩ [("lock:r", "tokB", 10)] =
      [("lock:r", "tokB", 10)] ∧
    RedisSingleLock.release ⟨"lock:r", 10, "tokA"⟩ [("lock:r", "tokA", 10)] =
      storeDel [("lock:r", "tokA", 10)] "lock:r" :=
  ⟨(release_only_deletes_own_token ⟨"lock:r", 10, "tokA"⟩ [("lock:r", "tokB", 10)]).2.1
      "tokB" (by decide) rfl,
    (release_only_deletes_own_token ⟨"lock:r", 10, "tokA"⟩ [("lock:r", "tokA", 10)]).1 rfl⟩

/-- The two lock classes the factory can build, with the constructor
arguments each receives in lock_factory.build_lock. -/
inductive BuiltLock where
  | redLockWrapper (key : String) (ttl : Int)
  | redisSingleLock (key : String) (expire : Int)
deriving DecidableEq, Repr

/-- lock_factory.build_lock: validate key / ttl / strategy, then build a
RedLockWrapper for "safe" and a RedisSingleLock (expire in seconds,
max 1 (ttl div 1000)) for "fast". -/
def build_lock (key : String) (ttl : Int) (strategy : String) :
    Except String BuiltLock :=
  if key = "" then .error "ValueError: key 必须为非空字符串"
  else if ttl ≤ 0 then .error "ValueError: ttl 必须为正整数(毫秒)"
  else if strategy ≠ "safe" ∧ strategy ≠ "fast" then
    .error "ValueError: strategy 必须为 safe 或 fast"
  else if strategy = "safe" then .ok (.redLockWrapper key ttl)
  else .ok (.redisSingleLock key (max 1 (ttl / 1000)))

/-- BaseLock.enterWith: the with-statement protocol: call acquire, and
raise RuntimeError when it returned False. -/
def baseLockEnter (acquired : Bool) : Except String Unit :=
  if acquired then .ok () else .error "RuntimeError: BaseLock 获取锁失败"

/-- RedisSingleLock.lock: the contextmanager body: when acquire succeeds
the body is entered with True (and release is guaranteed afterwards),
otherwise the body is entered with False; no exception escapes. -/
def redisSingleLockCtxYield (acquired : Bool) : Except String Bool :=
  if acquired then .ok true else .ok false

/-- RedLockWrapper.lock: identical contextmanager shape: yield True
under the lock, yield False on acquisition failure, never raise. -/
def redLockWrapperCtxYield (acquired : Bool) : Except String Bool :=
  if acquired then .ok true else .ok false

/-- What lock.lock() yields for a lock built by build_lock, dispatching
to the class the factory chose. -/
def lockCtxYield : BuiltLock → Bool → Except String Bool
  | .redLockWrapper _ _, acquired => redLockWrapperCtxYield acquired
  | .redisSingleLock _ _, acquired => redisSingleLockCtxYield acquired

/-- C10: for every lock build_lock produces, the two scoped-acquisition
forms disagree on acquisition failure: the with-statement
(BaseLock.enterWith) raises RuntimeError whenever acquire() returned
False, while lock.lock() never raises there and instead yields False to
its body. -/
theorem enter_raises_but_lockCtx_yields_false (key : String) (ttl : Int)
    (strategy : String) (lk : BuiltLock)
    (h : build_lock key ttl strategy = .ok lk) :
    baseLockEnter false = .error "RuntimeError: BaseLock 获取锁失败" ∧
    lockCtxYield lk false = .ok false ∧
    (∀ acquired : Bool, baseLockEnter acquired = .ok () ↔ acquired = true) := by
  refine ⟨rfl, ?_, ?_⟩
  · cases lk <;> rfl
  · intro acquired; cases acquired <;> simp [baseLockEnter]

/-- Witness for C10 on the lock built by build_lock("k", 1000, "fast"). -/
theorem enter_raises_but_lockCtx_yields_false_witness :
    baseLockEnter false = .error "RuntimeError: BaseLock 获取锁失败" ∧
    lockCtxYield (.redisSingleLock "k" 1) false = .ok false ∧
    (∀ acquired : Bool, baseLockEnter acquired = .ok () ↔ acquired = true) :=
  enter_raises_but_lockCtx_yields_false "k" 1000 "fast" (.redisSingleLock "k" 1) rfl

/-- jwt_signer.AzureRS256Signer.sign, cache-miss path: the stampede lock
around signing is built by build_lock(cache_key, ttl=lock_ttl_ms,
strategy='safe'), where cache_key is the content-hash cache key. -/
def signStampedeLock (cache_key : String) (lock_ttl_ms : Int) :
    Except String BuiltLock :=
  build_lock cache_key lock_ttl_ms "safe"

/-- jwt_verifier.AzureRS256Verifier._load_or_cache_public_key: the
public-key refresh lock is built by build_lock("lock:jwt:publickey:" ++
key_name, ttl=3000, strategy="safe") — and it is taken before the cache
is consulted, not only on a miss. -/
def publicKeyLock (key_name : String) : Except String BuiltLock :=
  build_lock ("lock:jwt:publickey:" ++ key_name) 3000 "safe"

/-- Whether a built lock is the Fast (single-store RedisSingleLock)
variant. -/
def isFastLock : BuiltLock → Bool
  | .redisSingleLock _ _ => true
  | .redLockWrapper _ _ => false

/-- C9 counterexample: at the concrete call sites' own arguments, both
the signer's stampede lock and the verifier's public-key lock come back
as RedLockWrapper (the Safe / quorum strategy), not as the Fast
single-instance lock the claim asserts. -/
theorem sign_and_pubkey_locks_are_not_fast :
    signStampedeLock "jwt:sign:contenthash" 1000 =
      .ok (.redLockWrapper "jwt:sign:contenthash" 1000) ∧
    publicKeyLock "JWT-RSA" =
      .ok (.redLockWrapper "lock:jwt:publickey:JWT-RSA" 3000) ∧
    isFastLock (.redLockWrapper "jwt:sign:contenthash" 1000) = false ∧
    isFastLock (.redLockWrapper "lock:jwt:publickey:JWT-RSA" 3000) = false := by
  exact ⟨rfl, rfl, rfl, rfl⟩

/-- C9 as amended: on a signed-token cache miss, sign builds its
stampede lock keyed by the content hash with the Safe (RedLock)
strategy, and the verifier's public-key loader always builds a Safe
lock keyed by the key id (taking it before its cache re-check); neither
call site uses the Fast strategy. -/
theorem sign_and_pubkey_locks_use_safe_strategy (cache_key key_name : String)
    (lock_ttl_ms : Int) (hk : cache_key ≠ "") (ht : 0 < lock_ttl_ms) :
    signStampedeLock cache_key lock_ttl_ms =
      .ok (.redLockWrapper cache_key lock_ttl_ms) ∧
    publicKeyLock key_name =
      .ok (.redLockWrapper ("lock:jwt:publickey:" ++ key_name) 3000) ∧
    (∀ lk, signStampedeLock cache_key lock_ttl_ms = .ok lk → isFastLock lk = false) ∧
    (∀ lk, publicKeyLock key_name = .ok lk → isFastLock lk = false) := by
  have h1 : signStampedeLock cache_key lock_ttl_ms =
      .ok (.redLockWrapper cache_key lock_ttl_ms) := by
    simp [signStampedeLock, build_lock, hk, not_le.mpr ht]
  have h2 : publicKeyLock key_name =
      .ok (.redLockWrapper ("lock:jwt:publickey:" ++ key_name) 3000) := by
    have hne : ("lock:jwt:publickey:" ++ key_name) ≠ "" := by
      intro h
      have : ("lock:jwt:publickey:" ++ key_name).length = 0 := by rw [h]; rfl
      rw [String.length_append] at this
      have hlen : ("lock:jwt:publickey:").length = 19 := rfl
      omega
    simp [publicKeyLock, build_lock, hne]
  refine ⟨h1, h2, ?_, ?_⟩
  · intro lk hlk
    rw [h1] at hlk
    cases hlk
    rfl
  · intro lk hlk
    rw [h2] at hlk
    cases hlk
    rfl

/-- Witness for the amended C9 at the verifier's real key name and a
1000 ms signer lock. -/
theorem sign_and_pubkey_locks_use_safe_strategy_witness :
    signStampedeLock "jwt:sign:h0" 1000 = .ok (.redLockWrapper "jwt:sign:h0" 1000) ∧
    publicKeyLock "JWT-RSA_SECRET-KEY" =
      .ok (.redLockWrapper ("lock:jwt:publickey:" ++ "JWT-RSA_SECRET-KEY") 3000) ∧
    (∀ lk, signStampedeLock "jwt:sign:h0" 1000 = .ok lk → isFastLock lk = false) ∧
    (∀ lk, publicKeyLock "JWT-RSA_SECRET-KEY" = .ok lk → isFastLock lk = false) :=
  sign_and_pubkey_locks_use_safe_strategy "jwt:sign:h0" "JWT-RSA_SECRET-KEY" 1000
    (by decide) (by decide)

end Locks

namespace Jwt

/-! Model of the JWT payload builder (jwt_payload.py), the Azure RS256
signer (jwt_signer.py) and verifier (jwt_verifier.py).

Cryptography is abstracted: base64url encoding of the three segments
and the RSA-PKCS#1-v1.5/SHA-256 signature are opaque here, so a Token
carries its decoded header algorithm, its decoded payload and a
sigValid flag meaning "the RSA verify call over header.payload succeeds
with the oracle's public key".  The oracle signs with the private half
of that key, so a token produced by sign has sigValid = true, and a
token with a flipped signature byte has sigValid = false. -/

/-- settings/base.py: JWT_ISSUER. -/
def JWT_ISSUER : String := "openai-chat.xyz"

/-- settings/base.py: JWT_AUDIENCE. -/
def JWT_AUDIENCE : String := "openai_chat_user"

/-- settings/base.py: JWT_SCOPE_DEFAULT. -/
def JWT_SCOPE_DEFAULT : String := "user"

/-- settings/base.py: JWT_ACCESS_TOKEN_LIFETIME = 60 * 60. -/
def JWT_ACCESS_TOKEN_LIFETIME : Int := 60 * 60

/-- settings/base.py: JWT_REFRESH_TOKEN_LIFETIME = 60 * 60 * 24 * 7. -/
def JWT_REFRESH_TOKEN_LIFETIME : Int := 60 * 60 * 24 * 7

/-- A decoded JWT payload.  Every claim field the code reads is optional
(absent field = none); ints are unbounded as in Python. -/
structure JwtPayload where
  sub : Option String
  iat : Option Int
  exp : Option Int
  iss : Option String
  aud : Option String
  scope : Option String
  jti : Option String
  typ : Option String
deriving DecidableEq, Repr

/-- Python truthiness fallback "scope or settings.JWT_SCOPE_DEFAULT":
None and the empty string both fall back to the default. -/
def scopeOrDefault : Option String → String
  | none => JWT_SCOPE_DEFAULT
  | some s => if s = "" then JWT_SCOPE_DEFAULT else s

/-- jwt_payload.build_jwt_payload: resolve the lifetime (explicit, or by
token_type with a ValueError on an unknown type), then build the
standard payload; now is int(time.time()) and jti the fresh uuid4. -/
def build_jwt_payload (user_id : String) (scope : Option String)
    (lifetime : Option Int) (token_type : String) (now : Int) (jti : String) :
    Except String JwtPayload :=
  let mk : Int → JwtPayload := fun l =>
    { sub := some user_id
      iat := some now
      exp := some (now + l)
      iss := some JWT_ISSUER
      aud := some JWT_AUDIENCE
      scope := some (scopeOrDefault scope)
      jti := some jti
      typ := some token_type }
  match lifetime with
  | some l => .ok (mk l)
  | none =>
    if token_type = "access" then .ok (mk JWT_ACCESS_TOKEN_LIFETIME)
    else if token_type = "refresh" then .ok (mk JWT_REFRESH_TOKEN_LIFETIME)
    else .error "ValueError: token_type 必须是 access 或 refresh"

/-- A decoded JWT header, as passed to AzureRS256Signer.sign. -/
structure JwtHeader where
  alg : String
  typ : String
deriving DecidableEq, Repr

/-- A three-segment token as the verifier sees it after splitting and
base64url decoding: raw is the token string itself (the cache key in
the code is its SHA-256 hash, injective on the tokens considered). -/
structure Token where
  raw : String
  alg : String
  payload : JwtPayload
  sigValid : Bool
deriving DecidableEq, Repr

/-- AzureRS256Signer.sign, reduced to its contract on the token it
returns: reject any header whose alg is not RS256 with ValueError;
otherwise produce the header.payload.signature token, whose signature
the oracle's public key verifies (caching and the stampede lock are
modelled separately, see Locks.signStampedeLock). -/
def sign (h : JwtHeader) (p : JwtPayload) (raw : String) : Except String Token :=
  if h.alg ≠ "RS256" then .error "ValueError: 仅支持 RS256 签名算法"
  else .ok { raw := raw, alg := h.alg, payload := p, sigValid := true }

/-- The issuer the verifier compares iss against (hardcoded in
AzureRS256Verifier.verify). -/
def expected_issuer : String := "https://openai-chat.xyz"

/-- The audience the verifier compares a present, truthy aud against
(hardcoded in AzureRS256Verifier.verify). -/
def expected_audience : String := "openai-chat-client"

/-- The scope allow-list of AzureRS256Verifier.verify. -/
def allowed_scopes : List String := ["user", "admin", "super"]

/-- Python str.strip(): drop whitespace from both ends (structural on
the character list, so it evaluates inside the kernel). -/
def pyStrip (s : String) : String :=
  String.mk (((s.data.dropWhile Char.isWhitespace).reverse.dropWhile
    Char.isWhitespace).reverse)

/-- The scope check and final return of AzureRS256Verifier.verify: a
scope key that is present must be in the allow-list; then the payload
is returned. -/
def scopeCheckThenReturn (p : JwtPayload) : Except String JwtPayload :=
  match p.scope with
  | some sc => if sc ∈ allowed_scopes then .ok p else .error "JWT 权限字段非法"
  | none => .ok p

/-- The aud check of AzureRS256Verifier.verify: only a present and
truthy (non-empty) aud is compared against expected_audience. -/
def audCheck (p : JwtPayload) : Except String JwtPayload :=
  match p.aud with
  | some a =>
    if a ≠ "" ∧ a ≠ expected_audience then .error "JWT Token 受众不匹配"
    else scopeCheckThenReturn p
  | none => scopeCheckThenReturn p

/-- The payload-claim validation block of AzureRS256Verifier.verify, in
source order: exp must be an int not in the past, iat an int not in the
future, sub a non-empty string of at least 6 characters after strip,
iss must equal the hardcoded expected_issuer, then aud and scope as in
audCheck / scopeCheckThenReturn.  There is no jti check. -/
def verifyPayloadChecks (p : JwtPayload) (now : Int) : Except String JwtPayload :=
  match p.exp with
  | none => .error "JWT Token 已过期或无效"
  | some e =>
    if now > e then .error "JWT Token 已过期或无效"
    else
      match p.iat with
      | none => .error "JWT Token 时间异常"
      | some i =>
        if i > now then .error "JWT Token 时间异常"
        else
          match p.sub with
          | none => .error "JWT Token 中 sub 字段非法"
          | some s =>
            if s = "" ∨ (pyStrip s).length < 6 then .error "JWT Token 中 sub 字段非法"
            else if p.iss ≠ some expected_issuer then .error "JWT Token 签发者不受信任"
            else audCheck p

/-- The verified-payload cache (Redis db REDIS_DB_JWT_CACHE): token
string (standing for its SHA-256 hash key) to cached payload.  The
60-second TTL on entries is an expiry event none of the theorems
trigger. -/
abbrev PayloadCache := List (String × JwtPayload)

/-- Cache lookup by token hash key. -/
def cacheGet (c : PayloadCache) (k : String) : Option JwtPayload :=
  match c with
  | [] => none
  | (k', p) :: rest => if k' = k then some p else cacheGet rest k

/-- AzureRS256Verifier.verify: outside DEBUG a payload-cache hit returns
the cached payload at once, before any signature or claim check; on a
miss the three segments are decoded, alg must be RS256 (blocking
alg-none substitution), the RSA signature must verify, then — before
the claim checks — the decoded payload is written to the payload cache
(production only), and only then are the claims validated.  Every
internal failure collapses to the single external RuntimeError
"JWT Token 非法或已过期". -/
def verify (cache : PayloadCache) (tok : Token) (debug : Bool) (now : Int) :
    (Except String JwtPayload) × PayloadCache :=
  match (if debug = false then cacheGet cache tok.raw else none) with
  | some p => (.ok p, cache)
  | none =>
    if tok.alg ≠ "RS256" then (.error "JWT Token 非法或已过期", cache)
    else if tok.sigValid = false then (.error "JWT Token 非法或已过期", cache)
    else
      let cache' := if debug = false then (tok.raw, tok.payload) :: cache else cache
      match verifyPayloadChecks tok.payload now with
      | .ok p => (.ok p, cache')
      | .error _ => (.error "JWT Token 非法或已过期", cache')

/-- The access-token payload the system itself issues through
build_jwt_payload (token_service uses settings lifetimes): sub of ≥ 6
chars, iss = settings.JWT_ISSUER, aud = settings.JWT_AUDIENCE. -/
def issuedPayload : JwtPayload :=
  { sub := some "123456789"
    iat := some 1000
    exp := some 4600
    iss := some JWT_ISSUER
    aud := some JWT_AUDIENCE
    scope := some "user"
    jti := some "jti-1"
    typ := some "access" }

/-- The token the signer produces over issuedPayload: alg RS256 and a
signature the oracle's public key verifies. -/
def issuedToken : Token :=
  { raw := "tok1", alg := "RS256", payload := issuedPayload, sigValid := true }

/-- C4: the sign-then-verify round trip FAILS on the very payloads the
system builds: build_jwt_payload stamps iss = settings.JWT_ISSUER
("openai-chat.xyz") and aud = settings.JWT_AUDIENCE, but the verifier
hardcodes expected_issuer "https://openai-chat.xyz" (and
expected_audience "openai-chat-client"), so verify rejects every token
sign produces from build_jwt_payload with the untrusted-issuer error,
collapsed externally to the generic invalid-token error. -/
theorem signed_payload_rejected_by_verifier :
    build_jwt_payload "123456789" (some "user") (some 3600) "access" 1000 "jti-1" =
      .ok issuedPayload ∧
    sign ⟨"RS256", "JWT"⟩ issuedPayload "tok1" = .ok issuedToken ∧
    verifyPayloadChecks issuedPayload 1000 = .error "JWT Token 签发者不受信任" ∧
    (verify [] issuedToken true 1000).1 = .error "JWT Token 非法或已过期" ∧
    issuedPayload.iss = some JWT_ISSUER ∧
    JWT_ISSUER ≠ expected_issuer := by
  refine ⟨rfl, rfl, rfl, rfl, rfl, by decide⟩

/-- A signature-valid token whose exp (100) is already in the past at
verification time (now = 200). -/
def expiredPayload : JwtPayload :=
  { sub := some "123456789"
    iat := some 50
    exp := some 100
    iss := some expected_issuer
    aud := none
    scope := none
    jti := some "jti-2"
    typ := some "access" }

/-- The expired token as the verifier decodes it. -/
def expiredToken : Token :=
  { raw := "tok2", alg := "RS256", payload := expiredPayload, sigValid := true }

/-- C5: verify writes the payload cache BEFORE the claim checks, not
only on full success: in production (debug = false) the first verify of
an expired, signature-valid token is rejected but still caches the
payload, and the second verify of the same token then hits that cache
and ACCEPTS the expired token with no checks at all. -/
theorem verify_caches_expired_token_and_then_accepts_it :
    (verify [] expiredToken false 200).1 = .error "JWT Token 非法或已过期" ∧
    (verify [] expiredToken false 200).2 = [("tok2", expiredPayload)] ∧
    (verify [("tok2", expiredPayload)] expiredToken false 200).1 =
      .ok expiredPayload := by
  refine ⟨rfl, rfl, rfl⟩

/-- A payload that passes every check the verifier actually performs
while carrying no aud, no scope and no jti at all. -/
def minimalPayload : JwtPayload :=
  { sub := some "123456"
    iat := some 1000
    exp := some 2000
    iss := some expected_issuer
    aud := none
    scope := none
    jti := none
    typ := some "access" }

/-- The corresponding signature-valid token. -/
def minimalToken : Token :=
  { raw := "tok3", alg := "RS256", payload := minimalPayload, sigValid := true }

/-- C6 counterexample: a token with NO aud, NO scope and NO jti passes
verification — the claim that a token missing any of these claims is
rejected is false on the code: aud is only checked when present and
truthy, scope only when present, and jti is never checked. -/
theorem verify_accepts_token_without_aud_scope_jti :
    verifyPayloadChecks minimalPayload 1500 = .ok minimalPayload ∧
    (verify [] minimalToken true 1500).1 = .ok minimalPayload := by
  refine ⟨rfl, rfl⟩

/-- C6 as amended: after signature verification the checks are, in
order: exp present and not in the past, iat present and not in the
future, sub present, non-empty, ≥ 6 chars after strip, iss equal to the
hardcoded expected_issuer; aud is checked only when present and
non-empty (it must then equal expected_audience); scope only when
present (it must then be in the allow-list); there is no jti check
whatsoever, so the outcome never depends on jti. -/
theorem verifyPayloadChecks_characterization (p : JwtPayload) (now : Int) :
    (verifyPayloadChecks p now = .ok p ↔
      (∃ e, p.exp = some e ∧ now ≤ e) ∧
      (∃ i, p.iat = some i ∧ i ≤ now) ∧
      (∃ s, p.sub = some s ∧ s ≠ "" ∧ 6 ≤ (pyStrip s).length) ∧
      p.iss = some expected_issuer ∧
      (∀ a, p.aud = some a → a ≠ "" → a = expected_audience) ∧
      (∀ sc, p.scope = some sc → sc ∈ allowed_scopes)) ∧
    (∀ j, verifyPayloadChecks { p with jti := j } now = .ok { p with jti := j } ↔
      verifyPayloadChecks p now = .ok p) := by
  obtain ⟨sub, iat, exp, iss, aud, scope, jti, typ⟩ := p
  constructor
  · cases exp with
    | none => simp [verifyPayloadChecks]
    | some e =>
      cases iat with
      | none =>
        simp only [verifyPayloadChecks]
        split <;> simp
      | some i =>
        cases sub with
        | none =>
          simp only [verifyPayloadChecks]
          split_ifs <;> simp
        | some s =>
          cases aud with
          | none =>
            cases scope with
            | none =>
              simp only [verifyPayloadChecks, audCheck, scopeCheckThenReturn]
              split_ifs with h1 h2 h3 h4 <;>
                simp_all [not_lt, not_and, not_not, not_or] <;> try omega
              all_goals
                first
                  | exact h5
                  | (rcases h3 with h3a | h3a <;> intros <;>
                      first | omega | simp_all)
            | some sc =>
              simp only [verifyPayloadChecks, audCheck, scopeCheckThenReturn]
              split_ifs with h1 h2 h3 h4 h5 <;>
                simp_all [not_lt, not_and, not_not, not_or] <;> try omega
              all_goals
                first
                  | exact h5
                  | (rcases h3 with h3a | h3a <;> intros <;>
                      first | omega | simp_all)
          | some a =>
            cases scope with
            | none =>
              simp only [verifyPayloadChecks, audCheck, scopeCheckThenReturn]
              split_ifs with h1 h2 h3 h4 h5 <;>
                simp_all [not_lt, not_and, not_not, not_or] <;> try omega
              all_goals
                first
                  | exact h5
                  | (rcases h3 with h3a | h3a <;> intros <;>
                      first | omega | simp_all)
            | some sc =>
              simp only [verifyPayloadChecks, audCheck, scopeCheckThenReturn]
              split_ifs with h1 h2 h3 h4 h5 h6 <;>
                simp_all [not_lt, not_and, not_not, not_or] <;> try omega
              all_goals
                first
                  | exact h5
                  | (rcases h3 with h3a | h3a <;> intros <;>
                      first | omega | simp_all)
  · intro j
    cases exp with
    | none => simp [verifyPayloadChecks]
    | some e =>
      cases iat with
      | none =>
        simp only [verifyPayloadChecks]
        split <;> simp
      | some i =>
        cases sub with
        | none =>
          simp only [verifyPayloadChecks]
          split_ifs <;> simp
        | some s =>
          cases aud with
          | none =>
            cases scope with
            | none =>
              simp only [verifyPayloadChecks, audCheck, scopeCheckThenReturn]
              split_ifs <;> simp_all
            | some sc =>
              simp only [verifyPayloadChecks, audCheck, scopeCheckThenReturn]
              split_ifs <;> simp_all
          | some a =>
            cases scope with
            | none =>
              simp only [verifyPayloadChecks, audCheck, scopeCheckThenReturn]
              split_ifs <;> simp_all
            | some sc =>
              simp only [verifyPayloadChecks, audCheck, scopeCheckThenReturn]
              split_ifs <;> simp_all

end Jwt

/-- Bits of c * 2 ^ n below position n are zero, so OR-ing in a value
below 2 ^ n is the same as adding it: the arithmetic content of packing
disjoint bit fields with shifts and ORs. -/
theorem nat_mul_pow_lor_eq_add (c b n : Nat) (hb : b < 2 ^ n) :
    (c * 2 ^ n) ||| b = c * 2 ^ n + b := by
  have hmod : ((c * 2 ^ n) ||| b) % 2 ^ n = b % 2 ^ n := by
    rw [← Nat.and_pow_two_sub_one_eq_mod, ← Nat.and_pow_two_sub_one_eq_mod]
    apply Nat.eq_of_testBit_eq
    intro i
    rw [Nat.testBit_and, Nat.testBit_and, Nat.testBit_lor, Nat.testBit_two_pow_sub_one]
    rcases lt_or_le i n with hi | hi
    · have hc : (c * 2 ^ n).testBit i = false := by
        rw [← Nat.shiftLeft_eq, Nat.testBit_shiftLeft]
        simp [Nat.not_le.mpr hi]
      simp [hc]
    · simp [Nat.not_lt.mpr hi]
  have hdiv : ((c * 2 ^ n) ||| b) / 2 ^ n = c := by
    rw [← Nat.shiftRight_eq_div_pow]
    apply Nat.eq_of_testBit_eq
    intro i
    rw [Nat.testBit_shiftRight, Nat.testBit_lor]
    have hbi : b.testBit (n + i) = false :=
      Nat.testBit_lt_two_pow
        (lt_of_lt_of_le hb (Nat.pow_le_pow_right (by norm_num) (Nat.le_add_right n i)))
    rw [hbi, ← Nat.shiftLeft_eq, Nat.testBit_shiftLeft]
    simp [Nat.le_add_right]
  have hb' : b % 2 ^ n = b := Nat.mod_eq_of_lt hb
  have hkey := Nat.div_add_mod ((c * 2 ^ n) ||| b) (2 ^ n)
  rw [hdiv, hmod, hb', Nat.mul_comm (2 ^ n) c] at hkey
  omega

/-- snowflake_const.py: SNOWFLAKE_EPOCH, ms of 2024-01-01T00:00:00Z. -/
def SNOWFLAKE_EPOCH : Int := 1704067200000

/-- The ID assembly of Snowflake.next_id, the Python expression
((ts - epoch) << 22) | (dc << 17) | (m << 12) | seq on unbounded ints
(two's-complement | and <<, which Int.lor / <<< match exactly). -/
def assembleId (ts : Int) (dc m seq : Nat) : Int :=
  Int.lor (Int.lor (Int.lor ((ts - SNOWFLAKE_EPOCH) <<< (22 : Int))
    ((dc : Int) <<< (17 : Int))) ((m : Int) <<< (12 : Int))) (seq : Int)

/-- For clock readings at or after the epoch and in-range fields, the
shift/OR assembly packs the fields arithmetically. -/
theorem assembleId_eq (ts : Int) (dc m seq : Nat)
    (hts : SNOWFLAKE_EPOCH ≤ ts) (hdc : dc ≤ 31) (hm : m ≤ 31) (hseq : seq ≤ 4095) :
    assembleId ts dc m seq =
      (ts - SNOWFLAKE_EPOCH) * 2 ^ 22 + dc * 2 ^ 17 + m * 2 ^ 12 + seq := by
  obtain ⟨d, hd⟩ : ∃ d : Nat, ts - SNOWFLAKE_EPOCH = (d : Int) :=
    ⟨(ts - SNOWFLAKE_EPOCH).toNat, (Int.toNat_of_nonneg (by omega)).symm⟩
  rw [assembleId, hd]
  have e1 : ((d : Int) <<< (22 : Int)) = (((d <<< 22 : Nat)) : Int) :=
    Int.shiftLeft_coe_nat d 22
  have e2 : ((dc : Int) <<< (17 : Int)) = (((dc <<< 17 : Nat)) : Int) :=
    Int.shiftLeft_coe_nat dc 17
  have e3 : ((m : Int) <<< (12 : Int)) = (((m <<< 12 : Nat)) : Int) :=
    Int.shiftLeft_coe_nat m 12
  rw [e1, e2, e3]
  have hnat : ((d <<< 22 ||| dc <<< 17) ||| m <<< 12) ||| seq =
      d * 2 ^ 22 + dc * 2 ^ 17 + m * 2 ^ 12 + seq := by
    have p17 : (2 : Nat) ^ 17 = 131072 := by norm_num
    have p12 : (2 : Nat) ^ 12 = 4096 := by norm_num
    have p22 : (2 : Nat) ^ 22 = 4194304 := by norm_num
    rw [Nat.shiftLeft_eq, Nat.shiftLeft_eq, Nat.shiftLeft_eq]
    have s1 : d * 2 ^ 22 ||| dc * 2 ^ 17 = d * 2 ^ 22 + dc * 2 ^ 17 :=
      nat_mul_pow_lor_eq_add d (dc * 2 ^ 17) 22 (by rw [p17, p22]; omega)
    have he2 : d * 2 ^ 22 + dc * 2 ^ 17 = (d * 2 ^ 5 + dc) * 2 ^ 17 := by ring
    have s2 : (d * 2 ^ 22 + dc * 2 ^ 17) ||| m * 2 ^ 12 =
        d * 2 ^ 22 + dc * 2 ^ 17 + m * 2 ^ 12 := by
      rw [he2]
      exact nat_mul_pow_lor_eq_add (d * 2 ^ 5 + dc) (m * 2 ^ 12) 17
        (by rw [p12, p17]; omega)
    have he3 : d * 2 ^ 22 + dc * 2 ^ 17 + m * 2 ^ 12 =
        (d * 2 ^ 10 + dc * 2 ^ 5 + m) * 2 ^ 12 := by ring
    have s3 : (d * 2 ^ 22 + dc * 2 ^ 17 + m * 2 ^ 12) ||| seq =
        d * 2 ^ 22 + dc * 2 ^ 17 + m * 2 ^ 12 + seq := by
      rw [he3]
      exact nat_mul_pow_lor_eq_add (d * 2 ^ 10 + dc * 2 ^ 5 + m) seq 12
        (by rw [p12]; omega)
    rw [s1, s2, s3]
  have hcast : Int.lor (Int.lor (((d <<< 22 : Nat) : Int)) (((dc <<< 17 : Nat) : Int)))
        (((m <<< 12 : Nat) : Int)) = ((((d <<< 22 ||| dc <<< 17) ||| m <<< 12) : Nat) : Int) :=
    rfl
  rw [hcast]
  have hcast2 : Int.lor ((((d <<< 22 ||| dc <<< 17) ||| m <<< 12) : Nat) : Int) ((seq : Nat) : Int) =
      (((((d <<< 22 ||| dc <<< 17) ||| m <<< 12) ||| seq) : Nat) : Int) := rfl
  rw [hcast2, hnat]
  push_cast
  ring

/-- snowflake_const.py: bit widths of the four ID fields. -/
def SNOWFLAKE_TIMESTAMP_BITS : Nat := 41
def SNOWFLAKE_DATACENTER_BITS : Nat := 5
def SNOWFLAKE_MACHINE_BITS : Nat := 5
def SNOWFLAKE_SEQUENCE_BITS : Nat := 12
/-- snowflake_const.py: SNOWFLAKE_MAX_DATACENTER_ID = (1 << 5) - 1. -/
def SNOWFLAKE_MAX_DATACENTER_ID : Nat := (1 <<< SNOWFLAKE_DATACENTER_BITS) - 1
/-- snowflake_const.py: SNOWFLAKE_MAX_MACHINE_ID = (1 << 5) - 1. -/
def SNOWFLAKE_MAX_MACHINE_ID : Nat := (1 <<< SNOWFLAKE_MACHINE_BITS) - 1
/-- snowflake_const.py: SNOWFLAKE_MAX_SEQUENCE = (1 << 12) - 1. -/
def SNOWFLAKE_MAX_SEQUENCE : Nat := (1 <<< SNOWFLAKE_SEQUENCE_BITS) - 1

/-- The in-process state of one Snowflake instance (snowflake_id.py):
datacenter_id and machine_id fixed at construction, plus the mutable
sequence and last_timestamp guarded by the instance mutex. -/
structure Snowflake where
  datacenter_id : Nat
  machine_id : Nat
  sequence : Nat
  last_timestamp : Int
deriving DecidableEq, Repr

/-- Snowflake constructor: mask the ids into range, sequence 0 and
last_timestamp -1. -/
def mkSnowflake (datacenter_id machine_id : Nat) : Snowflake :=
  { datacenter_id := datacenter_id &&& SNOWFLAKE_MAX_DATACENTER_ID
    machine_id := machine_id &&& SNOWFLAKE_MAX_MACHINE_ID
    sequence := 0
    last_timestamp := -1 }

/-- Snowflake.next_id, the body under the instance mutex.  ts is the
_timestamp_ms() reading at entry; tsWait is what _wait_next_ms returns
when the sequence wraps within the same millisecond (the only case the
code calls it; its loop spins until a reading exceeds last_timestamp,
which is the validWaits guard below). -/
def Snowflake.next_id (s : Snowflake) (ts tsWait : Int) :
    Except String (Snowflake × Int) :=
  if ts < s.last_timestamp then
    .error "Clock moved backwards. Refusing to generate id"
  else if ts = s.last_timestamp then
    let sequence := (s.sequence + 1) &&& SNOWFLAKE_MAX_SEQUENCE
    if sequence = 0 then
      let s' := { s with sequence := sequence, last_timestamp := tsWait }
      .ok (s', assembleId tsWait s.datacenter_id s.machine_id sequence)
    else
      let s' := { s with sequence := sequence, last_timestamp := ts }
      .ok (s', assembleId ts s.datacenter_id s.machine_id sequence)
  else
    let s' := { s with sequence := 0, last_timestamp := ts }
    .ok (s', assembleId ts s.datacenter_id s.machine_id 0)

/-- A serialized sequence of next_id calls on one instance, each call
carrying its own (ts, tsWait) clock readings; stops at the first error
(clock moved backwards). -/
def run_next_id (s : Snowflake) : List (Int × Int) → Except String (Snowflake × List Int)
  | [] => .ok (s, [])
  | (ts, tw) :: rest =>
    match s.next_id ts tw with
    | .error e => .error e
    | .ok (s1, id) =>
      match run_next_id s1 rest with
      | .error e => .error e
      | .ok (s2, ids) => .ok (s2, id :: ids)

/-- The _wait_next_ms contract along a trace: whenever a call wraps the
sequence in the same millisecond, the waited reading exceeds
last_timestamp — the loop exit condition (while ts <= last: ts = now). -/
def validWaits (s : Snowflake) : List (Int × Int) → Bool
  | [] => true
  | (ts, tw) :: rest =>
    ((!(decide (ts = s.last_timestamp) &&
        decide ((s.sequence + 1) &&& SNOWFLAKE_MAX_SEQUENCE = 0))) ||
      decide (s.last_timestamp < tw)) &&
    (match s.next_id ts tw with
     | .ok (s1, _) => validWaits s1 rest
     | .error _ => true)

/-- All clock readings of a trace are at or after the custom epoch, the
regime the 41-bit timestamp field is defined on. -/
def epochOk : List (Int × Int) → Bool
  | [] => true
  | (ts, tw) :: rest =>
    decide (SNOWFLAKE_EPOCH ≤ ts) && decide (SNOWFLAKE_EPOCH ≤ tw) && epochOk rest

/-- The ID value a state's (last_timestamp, sequence) pair packs to, in
plain arithmetic (proof-side companion of assembleId). -/
def encodeState (s : Snowflake) : Int :=
  (s.last_timestamp - SNOWFLAKE_EPOCH) * 2 ^ 22 +
    (s.datacenter_id : Int) * 2 ^ 17 + (s.machine_id : Int) * 2 ^ 12 + (s.sequence : Int)

/-- Decoding an ID back to its (timestamp-delta, sequence) pair, the
decode the claim speaks of: bits 22..62 and bits 0..11. -/
def decodeTimestampSeq (id : Int) : Int × Int :=
  (id / 2 ^ 22, id % 2 ^ 12)

/-- Strict lexicographic order on decoded (timestamp, sequence) pairs. -/
def pairLt (a b : Int × Int) : Prop :=
  a.1 < b.1 ∨ (a.1 = b.1 ∧ a.2 < b.2)

/-- The sequence mask is a mod-4096 wrap. -/
theorem seq_mask_eq_mod (q : Nat) :
    (q + 1) &&& SNOWFLAKE_MAX_SEQUENCE = (q + 1) % 4096 := by
  have h : SNOWFLAKE_MAX_SEQUENCE = 2 ^ 12 - 1 := rfl
  rw [h, Nat.and_pow_two_sub_one_eq_mod]

/-- One successful next_id call: node ids are untouched, the sequence
stays in range, the (last_timestamp, sequence) pair strictly increases
lexicographically, the returned ID packs the new pair, and the new
last_timestamp stays at or after the epoch when the readings do. -/
theorem next_id_step (s s' : Snowflake) (ts tsWait id : Int)
    (hseq : s.sequence ≤ 4095)
    (hw : ts = s.last_timestamp ∧ (s.sequence + 1) &&& SNOWFLAKE_MAX_SEQUENCE = 0 →
      s.last_timestamp < tsWait)
    (hok : s.next_id ts tsWait = .ok (s', id)) :
    s'.datacenter_id = s.datacenter_id ∧ s'.machine_id = s.machine_id ∧
    s'.sequence ≤ 4095 ∧
    (s.last_timestamp < s'.last_timestamp ∨
      (s.last_timestamp = s'.last_timestamp ∧ s.sequence < s'.sequence)) ∧
    id = assembleId s'.last_timestamp s'.datacenter_id s'.machine_id s'.sequence ∧
    (SNOWFLAKE_EPOCH ≤ ts → SNOWFLAKE_EPOCH ≤ tsWait → SNOWFLAKE_EPOCH ≤ s'.last_timestamp) := by
  rcases lt_trichotomy ts s.last_timestamp with h1 | h2 | h3
  · rw [Snowflake.next_id, if_pos h1] at hok
    cases hok
  · -- same millisecond
    subst h2
    rw [Snowflake.next_id, if_neg (lt_irrefl s.last_timestamp), if_pos rfl] at hok
    dsimp only at hok
    by_cases h0 : (s.sequence + 1) &&& SNOWFLAKE_MAX_SEQUENCE = 0
    · -- sequence wrapped: wait for the next millisecond
      rw [if_pos h0] at hok
      simp only [Except.ok.injEq, Prod.mk.injEq] at hok
      obtain ⟨hs, hid⟩ := hok
      subst hs
      subst hid
      have hlt : s.last_timestamp < tsWait := hw ⟨rfl, h0⟩
      refine ⟨rfl, rfl, ?_, Or.inl hlt, rfl, fun _ h => h⟩
      simp [h0]
    · -- sequence advanced within the same millisecond
      rw [if_neg h0] at hok
      simp only [Except.ok.injEq, Prod.mk.injEq] at hok
      obtain ⟨hs, hid⟩ := hok
      subst hs
      subst hid
      have hmask := seq_mask_eq_mod s.sequence
      refine ⟨rfl, rfl, ?_, Or.inr ⟨rfl, ?_⟩, rfl, fun h _ => h⟩
      · simp only [hmask]
        omega
      · simp only [hmask] at h0 ⊢
        omega
  · -- new millisecond: sequence resets to 0
    rw [Snowflake.next_id, if_neg (by omega : ¬ ts < s.last_timestamp),
      if_neg (by omega : ¬ ts = s.last_timestamp)] at hok
    simp only [Except.ok.injEq, Prod.mk.injEq] at hok
    obtain ⟨hs, hid⟩ := hok
    subst hs
    subst hid
    exact ⟨rfl, rfl, by simp, Or.inl h3, rfl, fun h _ => h⟩

/-- Packing is strictly monotone in the lexicographic order of
(last_timestamp, sequence) for a fixed node and in-range sequences. -/
theorem encode_lt (s t : Snowflake) (hq1 : s.sequence ≤ 4095) (ht : t.sequence ≤ 4095)
    (hdc : t.datacenter_id = s.datacenter_id) (hm : t.machine_id = s.machine_id)
    (h : s.last_timestamp < t.last_timestamp ∨
      (s.last_timestamp = t.last_timestamp ∧ s.sequence < t.sequence)) :
    encodeState s < encodeState t := by
  unfold encodeState
  rw [hdc, hm]
  have p22 : (2 : Int) ^ 22 = 4194304 := by norm_num
  have p17 : (2 : Int) ^ 17 = 131072 := by norm_num
  have p12 : (2 : Int) ^ 12 = 4096 := by norm_num
  rcases h with h | ⟨he, hq⟩
  · rw [p22, p17, p12]
    have hc1 : (s.sequence : Int) ≤ 4095 := by exact_mod_cast hq1
    have hc2 : (0 : Int) ≤ (t.sequence : Int) := by positivity
    omega
  · rw [he, p22, p17, p12]
    have : (s.sequence : Int) < (t.sequence : Int) := by exact_mod_cast hq
    omega

/-- Decoding inverts packing on in-range states. -/
theorem decode_assembled (t : Snowflake)
    (hdc : t.datacenter_id ≤ 31) (hm : t.machine_id ≤ 31) (hq : t.sequence ≤ 4095) :
    decodeTimestampSeq (encodeState t) =
      (t.last_timestamp - SNOWFLAKE_EPOCH, (t.sequence : Int)) := by
  unfold decodeTimestampSeq encodeState
  have p22 : (2 : Int) ^ 22 = 4194304 := by norm_num
  have p17 : (2 : Int) ^ 17 = 131072 := by norm_num
  have p12 : (2 : Int) ^ 12 = 4096 := by norm_num
  have hdc' : (t.datacenter_id : Int) ≤ 31 := by exact_mod_cast hdc
  have hm' : (t.machine_id : Int) ≤ 31 := by exact_mod_cast hm
  have hq' : (t.sequence : Int) ≤ 4095 := by exact_mod_cast hq
  have hdc0 : (0 : Int) ≤ (t.datacenter_id : Int) := by positivity
  have hm0 : (0 : Int) ≤ (t.machine_id : Int) := by positivity
  have hq0 : (0 : Int) ≤ (t.sequence : Int) := by positivity
  rw [p22, p17, p12, Prod.mk.injEq]
  constructor <;> omega

/-- Trace invariant for run_next_id: the returned IDs are strictly
increasing, their decoded (timestamp, sequence) pairs are strictly
increasing lexicographically, and the first ID exceeds the entry
state's packed pair. -/
theorem run_next_id_spec (inputs : List (Int × Int)) :
    ∀ (s : Snowflake),
    s.sequence ≤ 4095 → s.datacenter_id ≤ 31 → s.machine_id ≤ 31 →
    validWaits s inputs = true → epochOk inputs = true →
    ∀ s' ids, run_next_id s inputs = .ok (s', ids) →
      List.Chain' (· < ·) ids ∧
      List.Chain' pairLt (ids.map decodeTimestampSeq) ∧
      (∀ x ∈ ids.head?, encodeState s < x ∧
        pairLt (s.last_timestamp - SNOWFLAKE_EPOCH, (s.sequence : Int))
          (decodeTimestampSeq x)) := by
  induction inputs with
  | nil =>
    intro s _ _ _ _ _ s' ids hrun
    simp only [run_next_id, Except.ok.injEq, Prod.mk.injEq] at hrun
    obtain ⟨rfl, rfl⟩ := hrun
    simp
  | cons p rest ih =>
    obtain ⟨ts, tw⟩ := p
    intro s hseq hdc hm hw he s' ids hrun
    simp only [run_next_id] at hrun
    cases hnext : s.next_id ts tw with
    | error e => rw [hnext] at hrun; cases hrun
    | ok pair =>
      obtain ⟨s1, id1⟩ := pair
      rw [hnext] at hrun
      dsimp only at hrun
      cases hrest : run_next_id s1 rest with
      | error e => rw [hrest] at hrun; cases hrun
      | ok pair2 =>
        obtain ⟨s2, ids2⟩ := pair2
        rw [hrest] at hrun
        dsimp only at hrun
        simp only [Except.ok.injEq, Prod.mk.injEq] at hrun
        obtain ⟨rfl, rfl⟩ := hrun
        -- unpack the wait-loop guard and the epoch bounds for this step
        simp only [validWaits] at hw
        rw [hnext] at hw
        rw [Bool.and_eq_true] at hw
        obtain ⟨hguard, hwrest⟩ := hw
        have hwimp : ts = s.last_timestamp ∧
            (s.sequence + 1) &&& SNOWFLAKE_MAX_SEQUENCE = 0 →
            s.last_timestamp < tw := by
          intro hab
          rw [Bool.or_eq_true] at hguard
          rcases hguard with hg | hg
          · rw [Bool.not_eq_true', Bool.and_eq_false_iff] at hg
            rcases hg with hg | hg <;> simp [hab.1, hab.2] at hg
          · exact of_decide_eq_true hg
        simp only [epochOk, Bool.and_eq_true, decide_eq_true_eq] at he
        obtain ⟨⟨hets, hetw⟩, herest⟩ := he
        obtain ⟨hdc1, hm1, hseq1, hpair, hid, hep⟩ :=
          next_id_step s s1 ts tw id1 hseq hwimp hnext
        have hep1 : SNOWFLAKE_EPOCH ≤ s1.last_timestamp := hep hets hetw
        have hdc1' : s1.datacenter_id ≤ 31 := by rw [hdc1]; exact hdc
        have hm1' : s1.machine_id ≤ 31 := by rw [hm1]; exact hm
        have hid_enc : id1 = encodeState s1 := by
          rw [hid, assembleId_eq _ _ _ _ hep1 hdc1' hm1' hseq1]
          rfl
        have hdec1 : decodeTimestampSeq id1 =
            (s1.last_timestamp - SNOWFLAKE_EPOCH, (s1.sequence : Int)) := by
          rw [hid_enc]
          exact decode_assembled s1 hdc1' hm1' hseq1
        obtain ⟨hchain, hchaindec, hglue⟩ :=
          ih s1 hseq1 hdc1' hm1' hwrest herest s2 ids2 hrest
        have henc_lt : encodeState s < encodeState s1 :=
          encode_lt s s1 hseq hseq1 hdc1 hm1 hpair
        have hpairdec : pairLt
            (s.last_timestamp - SNOWFLAKE_EPOCH, (s.sequence : Int))
            (s1.last_timestamp - SNOWFLAKE_EPOCH, (s1.sequence : Int)) := by
          rcases hpair with h | ⟨heq, hlt⟩
          · exact Or.inl (by simp only []; omega)
          · refine Or.inr ⟨by simp only []; omega, ?_⟩
            simp only []
            exact_mod_cast hlt
        refine ⟨?_, ?_, ?_⟩
        · rw [List.chain'_cons']
          refine ⟨fun y hy => ?_, hchain⟩
          rw [hid_enc]
          exact (hglue y hy).1
        · rw [List.map_cons, List.chain'_cons']
          refine ⟨fun y hy => ?_, hchaindec⟩
          rw [List.head?_map, Option.mem_map] at hy
          obtain ⟨x, hx, rfl⟩ := hy
          rw [hdec1]
          exact (hglue x hx).2
        · intro x hx
          simp only [List.head?_cons, Option.mem_some_iff] at hx
          subst hx
          constructor
          · rw [hid_enc]; exact henc_lt
          · rw [hdec1]; exact hpairdec

/-- C2: for every serialized sequence of next_id calls on one Snowflake
instance (clock readings after the epoch, _wait_next_ms honouring its
loop exit condition), the returned IDs decoded as (timestamp, sequence)
pairs are strictly increasing, the raw IDs are strictly increasing, and
no ID value is ever returned twice by that instance. -/
theorem next_id_strictly_increasing (dcArg mArg : Nat) (inputs : List (Int × Int))
    (s' : Snowflake) (ids : List Int)
    (hw : validWaits (mkSnowflake dcArg mArg) inputs = true)
    (he : epochOk inputs = true)
    (hrun : run_next_id (mkSnowflake dcArg mArg) inputs = .ok (s', ids)) :
    List.Chain' pairLt (ids.map decodeTimestampSeq) ∧
    List.Chain' (· < ·) ids ∧ ids.Nodup := by
  obtain ⟨hchain, hchaindec, _⟩ :=
    run_next_id_spec inputs (mkSnowflake dcArg mArg)
      (by simp [mkSnowflake]) Nat.and_le_right Nat.and_le_right hw he s' ids hrun
  refine ⟨hchaindec, hchain, ?_⟩
  have hpw : List.Pairwise (· < ·) ids := List.chain'_iff_pairwise.mp hchain
  exact hpw.imp ne_of_lt

/-- Witness for C2: datacenter 3, machine 7; two calls in the epoch
millisecond and one in the next yield IDs 421888, 421889, 4616192. -/
theorem next_id_strictly_increasing_witness :
    validWaits (mkSnowflake 3 7)
      [(1704067200000, 1704067200001), (1704067200000, 1704067200001),
        (1704067200001, 1704067200002)] = true ∧
    epochOk [(1704067200000, 1704067200001), (1704067200000, 1704067200001),
        (1704067200001, 1704067200002)] = true ∧
    run_next_id (mkSnowflake 3 7)
      [(1704067200000, 1704067200001), (1704067200000, 1704067200001),
        (1704067200001, 1704067200002)] =
      .ok (⟨3, 7, 0, 1704067200001⟩, [421888, 421889, 4616192]) ∧
    (List.Chain' pairLt ([421888, 421889, 4616192].map decodeTimestampSeq) ∧
      List.Chain' (· < ·) [(421888 : Int), 421889, 4616192] ∧
      [(421888 : Int), 421889, 4616192].Nodup) := by
  refine ⟨by decide, by decide, by rfl, ?_⟩
  exact next_id_strictly_increasing 3 7
    [(1704067200000, 1704067200001), (1704067200000, 1704067200001),
      (1704067200001, 1704067200002)]
    ⟨3, 7, 0, 1704067200001⟩ [421888, 421889, 4616192]
    (by decide) (by decide) (by rfl)

namespace SnowflakeRegister

/-! Model of snowflake/redis_register.py against snowflake_const.py.
The constants module was migrated to the pure persistent-binding model
(bind + used permanent keys, documented "no TTL lease, no renewal
thread"), but RedisNodeRegister still reads the removed lease-model
constants, so its behaviour is decided by Python attribute lookup. -/

/-- The module-level names snowflake_const.py actually defines. -/
def snowflakeConstNames : List String :=
  ["SNOWFLAKE_REDIS_DB", "SYSTEM_INIT_LOCK_KEY", "SYSTEM_INIT_LOCK_EXPIRE",
   "SNOWFLAKE_BIND_KEY_PREFIX", "SNOWFLAKE_USED_KEY_PREFIX",
   "SNOWFLAKE_EPOCH", "SNOWFLAKE_TIMESTAMP_BITS", "SNOWFLAKE_DATACENTER_BITS",
   "SNOWFLAKE_MACHINE_BITS", "SNOWFLAKE_SEQUENCE_BITS",
   "SNOWFLAKE_MAX_DATACENTER_ID", "SNOWFLAKE_MAX_MACHINE_ID",
   "SNOWFLAKE_MAX_SEQUENCE", "SNOWFLAKE_MACHINE_SHIFT",
   "SNOWFLAKE_DATACENTER_SHIFT", "SNOWFLAKE_TIMESTAMP_SHIFT"]

/-- Python attribute access on module snowflake_const: a name the module
does not define raises AttributeError. -/
def getattrSnowflakeConst (name : String) : Except String Unit :=
  if name ∈ snowflakeConstNames then .ok ()
  else .error ("AttributeError: module snowflake_const has no attribute " ++ name)

/-- RedisNodeRegister.init (redis_register.py): the snowflake_const
attribute reads the constructor performs, in source order; the first
missing attribute aborts construction before any Redis I/O. -/
def redisNodeRegisterInit (_unique_key : Option String) : Except String Unit := do
  -- self.node_key_prefix = snowflake_const.SNOWFLAKE_NODE_KEY_PREFIX
  getattrSnowflakeConst "SNOWFLAKE_NODE_KEY_PREFIX"
  -- self.bind_key_prefix = snowflake_const.SNOWFLAKE_BIND_KEY_PREFIX
  getattrSnowflakeConst "SNOWFLAKE_BIND_KEY_PREFIX"
  -- self.max_dc_id = snowflake_const.SNOWFLAKE_MAX_DATACENTER_ID
  getattrSnowflakeConst "SNOWFLAKE_MAX_DATACENTER_ID"
  -- self.max_machine_id = snowflake_const.SNOWFLAKE_MAX_MACHINE_ID
  getattrSnowflakeConst "SNOWFLAKE_MAX_MACHINE_ID"
  -- self.ttl = snowflake_const.SNOWFLAKE_REGISTER_TTL_SECONDS
  getattrSnowflakeConst "SNOWFLAKE_REGISTER_TTL_SECONDS"

/-- The Redis write RedisNodeRegister.register() issues to claim slot
(datacenter_id, machine_id): its key, value, NX flag and expiry. -/
structure SlotClaimWrite where
  key : String
  value : String
  nx : Bool
  ex : Option Int
deriving DecidableEq, Repr

/-- register()'s conditional claim:
redis.set(reg_key, "1", nx=True, ex=self.ttl) — the stored value is the
literal "1" (not the uniqueKey) and the key carries a TTL. -/
def registerSlotClaimWrite (node_key_pref : String)
    (datacenter_id machine_id : Nat) (ttl : Int) : SlotClaimWrite :=
  { key := node_key_pref ++ ":" ++ toString datacenter_id ++ ":" ++
      toString machine_id
    value := "1"
    nx := true
    ex := some ttl }

/-- C3: node-identity acquisition cannot record the slot claim as a
permanent marker: RedisNodeRegister's constructor reads
snowflake_const.SNOWFLAKE_NODE_KEY_PREFIX (and later
SNOWFLAKE_REGISTER_TTL_SECONDS), names the constants module no longer
defines after its migration to the persistent-binding model, so
construction raises AttributeError before any store access; and the
slot-claim write in register() stores the literal "1" under a TTL — a
lease, not the claimed permanent (datacenterId, machineId) -> uniqueKey
marker without expiry. -/
theorem register_init_raises_attribute_error :
    redisNodeRegisterInit (some "host-1") =
      .error "AttributeError: module snowflake_const has no attribute SNOWFLAKE_NODE_KEY_PREFIX" ∧
    getattrSnowflakeConst "SNOWFLAKE_REGISTER_TTL_SECONDS" =
      .error "AttributeError: module snowflake_const has no attribute SNOWFLAKE_REGISTER_TTL_SECONDS" ∧
    (∀ pref dc m ttl, (registerSlotClaimWrite pref dc m ttl).ex = some ttl ∧
      (registerSlotClaimWrite pref dc m ttl).value = "1") :=
  ⟨rfl, rfl, fun _ _ _ _ => ⟨rfl, rfl⟩⟩

end SnowflakeRegister
